import Mathlib

/-
Verification of the orchestration pipeline in src/Main.py.

The program is a LangGraph pipeline over a shared `FrontendState` record:
a guardrail node scans the request for dangerous keywords, a figma node
produces a design spec, a claude_code node produces markup (a fixed mock
template when no API key is configured, otherwise the result of one
external service call), a test node validates the markup by substring
checks, and a bounded retry loop (MAX_RETRIES = 2) re-runs generation on
validation failure.

Embedding notes:
 - Python's `str.lower` is modelled by `lowerStr` (ASCII case folding via
   `Char.toLower`; all denylist keywords and markers are ASCII).
 - Python's `needle in hay` substring test is modelled by `strContains`.
 - The external text-generation call is modelled by an oracle
   `svc : Nat → String → Except String String` giving the result of the
   n-th service call on a prompt (`Except.error` models any exception
   raised by the call); the node itself receives the call's result.
 - The compiled graph's execution (entry guardrail, conditional edges via
   `should_proceed` and `should_retry`, cycle through `increment_retry`)
   is `run`; `runTrace` lists every state produced along the way.
-/

/-- Prefix test on char lists: `leadsWith needle l` is true when `needle`
is an initial segment of `l`. -/
def leadsWith : List Char → List Char → Bool
  | [], _ => true
  | _ :: _, [] => false
  | c :: cs, d :: ds => c == d && leadsWith cs ds

/-- Occurrence test on char lists: `needle` occurs contiguously in the list. -/
def occursInL (needle : List Char) : List Char → Bool
  | [] => needle.isEmpty
  | d :: ds => leadsWith needle (d :: ds) || occursInL needle ds

/-- Python's `needle in hay` on strings. -/
def strContains (hay needle : String) : Bool :=
  occursInL needle.toList hay.toList

/-- Python's `str.lower` (ASCII folding; the program only compares ASCII). -/
def lowerStr (s : String) : String :=
  String.mk (s.toList.map Char.toLower)

/-- The `FrontendState` TypedDict of src/Main.py. -/
structure FrontendState where
  user_request : String
  figma_design : Option String
  generated_code : Option String
  test_result : Option String
  guardrail_passed : Option Bool
  retry_count : Nat
  error : Option String
deriving Repr, DecidableEq, Inhabited

/-- DANGEROUS_KEYWORDS of src/Main.py. -/
def DANGEROUS_KEYWORDS : List String :=
  ["delete all", "drop table", "rm -rf",
   "format disk", "shutdown", "hack",
   "steal", "inject", "bypass security"]

/-- The guardrail message for a matched keyword. -/
def guardMessage (kw : String) : String :=
  "Request blocked by guardrail: '" ++ kw ++ "' is not allowed."

/-- guardrail_node of src/Main.py: scan the lowercased request for the
first dangerous keyword; on a hit set guardrail_passed to false and record
the error, otherwise set guardrail_passed to true. -/
def guardrail_node (s : FrontendState) : FrontendState :=
  match DANGEROUS_KEYWORDS.find? (fun kw => strContains (lowerStr s.user_request) kw) with
  | some kw =>
      { s with guardrail_passed := some false, error := some (guardMessage kw) }
  | none => { s with guardrail_passed := some true }

/-- should_proceed of src/Main.py: `not state.get("guardrail_passed")`
routes to "blocked"; only a stored `True` routes to "proceed". -/
def should_proceed (s : FrontendState) : String :=
  match s.guardrail_passed with
  | some true => "proceed"
  | _ => "blocked"

/-- figma_node of src/Main.py: the simulated design spec. -/
def figma_node (s : FrontendState) : FrontendState :=
  { s with figma_design := some ("\n    Design spec for: " ++ s.user_request ++
      "\n    - Layout: centered login form" ++
      "\n    - Components: email input, password input, submit button" ++
      "\n    - Colors: #FFFFFF background, #2563EB primary button" ++
      "\n    - Font: Inter 16px\n    ") }

/-- The hardcoded mock output of claude_code_node (no API key). -/
def MOCK_CODE : String :=
  "\n<form class='login-form'>\n  <input type='email' placeholder='Email' />\n  <input type='password' placeholder='Password' />\n  <button type='submit'>Login</button>\n</form>\n"

/-- The prompt claude_code_node builds from the design spec (a missing
design renders as Python's `str(None)`). -/
def mkPrompt (design : Option String) : String :=
  "\n    Based on this UI design spec, generate clean HTML + CSS code.\n    Only output the code, no explanation.\n\n    Design spec:\n    " ++
    (match design with | some d => d | none => "None") ++ "\n    "

/-- claude_code_node of src/Main.py. `api_key` is the ANTHROPIC_API_KEY
environment lookup; `svcResult` is the outcome of the one external call
made when a key is present (`Except.error` models a raised exception,
caught by the node). Mock mode ignores the service entirely. -/
def claude_code_node (api_key : Option String) (svcResult : Except String String)
    (s : FrontendState) : FrontendState :=
  match api_key with
  | none => { s with generated_code := some MOCK_CODE, error := none }
  | some _ =>
    match svcResult with
    | Except.ok code => { s with generated_code := some code, error := none }
    | Except.error e => { s with error := some e }

/-- The validation verdict test_node computes from the generated code
(after Python's `state.get("generated_code") or ""` coercion). Appends
every missing marker to the issues list. -/
def validate (code : String) : String :=
  if code = "" then
    "FAILED: No code was generated"
  else
    let issues : List String :=
      (if !(strContains code "<form") && !(strContains (lowerStr code) "form")
        then ["Missing form element"] else []) ++
      (if !(strContains (lowerStr code) "input")
        then ["Missing input fields"] else []) ++
      (if !(strContains (lowerStr code) "button") && !(strContains (lowerStr code) "submit")
        then ["Missing submit button"] else [])
    if issues = [] then "All tests passed"
    else "FAILED: " ++ String.intercalate ", " issues

/-- test_node of src/Main.py: store the verdict in test_result. -/
def test_node (s : FrontendState) : FrontendState :=
  { s with test_result := some (validate (s.generated_code.getD "")) }

/-- blocked_node of src/Main.py: logs and returns the state unchanged. -/
def blocked_node (s : FrontendState) : FrontendState := s

/-- MAX_RETRIES of src/Main.py. -/
def MAX_RETRIES : Nat := 2

/-- should_retry of src/Main.py: done when "passed" occurs in the test
result or the retry budget is exhausted, otherwise retry. -/
def should_retry (s : FrontendState) : String :=
  if strContains (s.test_result.getD "") "passed" then "done"
  else if s.retry_count ≥ MAX_RETRIES then "done"
  else "retry"

/-- increment_retry of src/Main.py. -/
def increment_retry (s : FrontendState) : FrontendState :=
  { s with retry_count := s.retry_count + 1 }

/-- The claude_code → test → (retry?) cycle of the compiled graph, entered
with the current state; `svc s.retry_count` is the external call an
attempt at the current retry count would make. Total by well-founded
recursion on the remaining retry budget: the cycle cannot run forever. -/
def genLoop (api_key : Option String) (svc : Nat → String → Except String String)
    (s : FrontendState) : FrontendState :=
  if h : should_retry (test_node (claude_code_node api_key
        (svc s.retry_count (mkPrompt s.figma_design)) s)) = "retry" then
    genLoop api_key svc (increment_retry (test_node (claude_code_node api_key
        (svc s.retry_count (mkPrompt s.figma_design)) s)))
  else
    test_node (claude_code_node api_key (svc s.retry_count (mkPrompt s.figma_design)) s)
termination_by MAX_RETRIES + 1 - s.retry_count
decreasing_by
  have hcc : (claude_code_node api_key (svc s.retry_count (mkPrompt s.figma_design)) s).retry_count
      = s.retry_count := by
    cases api_key with
    | none => rfl
    | some k => cases svc s.retry_count (mkPrompt s.figma_design) <;> rfl
  have h1 : (test_node (claude_code_node api_key
      (svc s.retry_count (mkPrompt s.figma_design)) s)).retry_count = s.retry_count := hcc
  have h2 : (test_node (claude_code_node api_key
      (svc s.retry_count (mkPrompt s.figma_design)) s)).retry_count < MAX_RETRIES := by
    unfold should_retry at h
    split at h
    · exact absurd h (by decide)
    · split at h
      · exact absurd h (by decide)
      · omega
  have h3 : (increment_retry (test_node (claude_code_node api_key
      (svc s.retry_count (mkPrompt s.figma_design)) s))).retry_count
      = (test_node (claude_code_node api_key
      (svc s.retry_count (mkPrompt s.figma_design)) s)).retry_count + 1 := rfl
  omega

/-- All states produced inside the claude_code → test → (retry?) cycle,
in execution order (after the generation node, after the test node, and
after each increment_retry). Same recursion as `genLoop`. -/
def genTrace (api_key : Option String) (svc : Nat → String → Except String String)
    (s : FrontendState) : List FrontendState :=
  if h : should_retry (test_node (claude_code_node api_key
        (svc s.retry_count (mkPrompt s.figma_design)) s)) = "retry" then
    claude_code_node api_key (svc s.retry_count (mkPrompt s.figma_design)) s ::
    test_node (claude_code_node api_key (svc s.retry_count (mkPrompt s.figma_design)) s) ::
    increment_retry (test_node (claude_code_node api_key
        (svc s.retry_count (mkPrompt s.figma_design)) s)) ::
    genTrace api_key svc (increment_retry (test_node (claude_code_node api_key
        (svc s.retry_count (mkPrompt s.figma_design)) s)))
  else
    [claude_code_node api_key (svc s.retry_count (mkPrompt s.figma_design)) s,
     test_node (claude_code_node api_key (svc s.retry_count (mkPrompt s.figma_design)) s)]
termination_by MAX_RETRIES + 1 - s.retry_count
decreasing_by
  have hcc : (claude_code_node api_key (svc s.retry_count (mkPrompt s.figma_design)) s).retry_count
      = s.retry_count := by
    cases api_key with
    | none => rfl
    | some k => cases svc s.retry_count (mkPrompt s.figma_design) <;> rfl
  have h1 : (test_node (claude_code_node api_key
      (svc s.retry_count (mkPrompt s.figma_design)) s)).retry_count = s.retry_count := hcc
  have h2 : (test_node (claude_code_node api_key
      (svc s.retry_count (mkPrompt s.figma_design)) s)).retry_count < MAX_RETRIES := by
    unfold should_retry at h
    split at h
    · exact absurd h (by decide)
    · split at h
      · exact absurd h (by decide)
      · omega
  have h3 : (increment_retry (test_node (claude_code_node api_key
      (svc s.retry_count (mkPrompt s.figma_design)) s))).retry_count
      = (test_node (claude_code_node api_key
      (svc s.retry_count (mkPrompt s.figma_design)) s)).retry_count + 1 := rfl
  omega

/-- The fresh state `run` is invoked with (the TypedDict built in the
demo driver: all optional fields empty, retry_count 0). -/
def initialState (request : String) : FrontendState :=
  { user_request := request, figma_design := none, generated_code := none,
    test_result := none, guardrail_passed := none, retry_count := 0, error := none }

/-- One full execution of the compiled graph on a request: guardrail,
then either the blocked terminator or figma followed by the
generation/validation cycle. -/
def run (api_key : Option String) (svc : Nat → String → Except String String)
    (request : String) : FrontendState :=
  if should_proceed (guardrail_node (initialState request)) = "proceed" then
    genLoop api_key svc (figma_node (guardrail_node (initialState request)))
  else
    blocked_node (guardrail_node (initialState request))

/-- Every state a run passes through, in execution order, starting with
the initial state. -/
def runTrace (api_key : Option String) (svc : Nat → String → Except String String)
    (request : String) : List FrontendState :=
  if should_proceed (guardrail_node (initialState request)) = "proceed" then
    initialState request :: guardrail_node (initialState request) ::
    figma_node (guardrail_node (initialState request)) ::
    genTrace api_key svc (figma_node (guardrail_node (initialState request)))
  else
    [initialState request, guardrail_node (initialState request),
     blocked_node (guardrail_node (initialState request))]

/-- Service oracle that always fails (models the API raising an exception). -/
def errSvc : Nat → String → Except String String :=
  fun _ _ => Except.error "service unavailable"

/-- Service oracle that always returns markup with no form, input or
submit markers. -/
def divSvc : Nat → String → Except String String :=
  fun _ _ => Except.ok "<div>placeholder</div>"

theorem retry_count_claude_code (a : Option String) (r : Except String String)
    (s : FrontendState) : (claude_code_node a r s).retry_count = s.retry_count := by
  cases a with
  | none => rfl
  | some k => cases r <;> rfl

theorem retry_count_test (s : FrontendState) :
    (test_node s).retry_count = s.retry_count := rfl

theorem retry_count_guardrail (s : FrontendState) :
    (guardrail_node s).retry_count = s.retry_count := by
  unfold guardrail_node
  cases DANGEROUS_KEYWORDS.find? (fun kw => strContains (lowerStr s.user_request) kw) <;> rfl

theorem should_retry_lt {s : FrontendState} (h : should_retry s = "retry") :
    s.retry_count < MAX_RETRIES := by
  unfold should_retry at h
  split at h
  · exact absurd h (by decide)
  · split at h
    · exact absurd h (by decide)
    · omega

theorem genLoop_eq (a : Option String) (svc : Nat → String → Except String String)
    (s : FrontendState) :
    genLoop a svc s =
      if should_retry (test_node (claude_code_node a
          (svc s.retry_count (mkPrompt s.figma_design)) s)) = "retry"
      then genLoop a svc (increment_retry (test_node (claude_code_node a
          (svc s.retry_count (mkPrompt s.figma_design)) s)))
      else test_node (claude_code_node a (svc s.retry_count (mkPrompt s.figma_design)) s) := by
  rw [genLoop]
  split <;> rfl

theorem genTrace_eq (a : Option String) (svc : Nat → String → Except String String)
    (s : FrontendState) :
    genTrace a svc s =
      if should_retry (test_node (claude_code_node a
          (svc s.retry_count (mkPrompt s.figma_design)) s)) = "retry"
      then claude_code_node a (svc s.retry_count (mkPrompt s.figma_design)) s ::
           test_node (claude_code_node a (svc s.retry_count (mkPrompt s.figma_design)) s) ::
           increment_retry (test_node (claude_code_node a
               (svc s.retry_count (mkPrompt s.figma_design)) s)) ::
           genTrace a svc (increment_retry (test_node (claude_code_node a
               (svc s.retry_count (mkPrompt s.figma_design)) s)))
      else [claude_code_node a (svc s.retry_count (mkPrompt s.figma_design)) s,
            test_node (claude_code_node a (svc s.retry_count (mkPrompt s.figma_design)) s)] := by
  rw [genTrace]
  split <;> rfl

theorem guardMessage_ne_empty (kw : String) : guardMessage kw ≠ "" := by
  intro he
  have hl := congrArg String.length he
  rw [guardMessage, String.length_append, String.length_append] at hl
  have h1 : ("Request blocked by guardrail: '" : String).length = 31 := by decide
  have h2 : ("" : String).length = 0 := by decide
  omega

/-- C4: Fallback-mode Generation (no credential) ignores the service result
and the rest of the state: it always produces the fixed mock template as
generated_code and clears the error, so any two invocations agree. -/
theorem mock_generation_deterministic (r r' : Except String String)
    (s t : FrontendState) :
    (claude_code_node none r s).generated_code = some MOCK_CODE ∧
    (claude_code_node none r s).error = none ∧
    (claude_code_node none r s).generated_code = (claude_code_node none r' t).generated_code :=
  ⟨rfl, rfl, rfl⟩

/-- C6: In service mode, a failing external call only sets the error field:
generated_code keeps its previous value and every other field is unchanged
(the node returns a state instead of propagating the exception). -/
theorem service_failure_frame (key e : String) (s : FrontendState) :
    claude_code_node (some key) (Except.error e) s = { s with error := some e } ∧
    (claude_code_node (some key) (Except.error e) s).generated_code = s.generated_code :=
  ⟨rfl, rfl⟩

/-- C5: With empty or absent generated_code, validation yields exactly the
"no code generated" failure verdict and changes nothing else. -/
theorem test_node_empty_code_verdict (s : FrontendState)
    (h : s.generated_code = none ∨ s.generated_code = some "") :
    test_node s = { s with test_result := some "FAILED: No code was generated" } := by
  rcases h with h | h <;> simp [test_node, h] <;> rfl

/-- Witness for C5 at a concrete state with no generated code. -/
theorem test_node_empty_code_verdict_witness :
    test_node { user_request := "Build a page", figma_design := none,
                generated_code := none, test_result := none,
                guardrail_passed := some true, retry_count := 0, error := none }
      = { user_request := "Build a page", figma_design := none,
          generated_code := none,
          test_result := some "FAILED: No code was generated",
          guardrail_passed := some true, retry_count := 0, error := none } :=
  test_node_empty_code_verdict _ (Or.inl rfl)

/-- C8: The post-guard route is "proceed" exactly on a stored true flag and
"blocked" otherwise, in particular on an unset flag. -/
theorem should_proceed_routing_spec (s : FrontendState) :
    (should_proceed s = "proceed" ↔ s.guardrail_passed = some true) ∧
    (should_proceed s = "blocked" ↔ s.guardrail_passed ≠ some true) ∧
    (s.guardrail_passed = none → should_proceed s = "blocked") := by
  cases h : s.guardrail_passed with
  | none => simp [should_proceed, h]
  | some b => cases b <;> simp [should_proceed, h]

/-- C10: should_retry routes to "done" exactly when "passed" occurs in the
stored test result or the retry budget is exhausted; an unset test result
with budget remaining routes to "retry". -/
theorem should_retry_routing_spec (s : FrontendState) :
    (should_retry s = "done" ↔
      (strContains (s.test_result.getD "") "passed" = true ∨
        MAX_RETRIES ≤ s.retry_count)) ∧
    (should_retry s = "retry" ↔
      (strContains (s.test_result.getD "") "passed" = false ∧
        s.retry_count < MAX_RETRIES)) ∧
    (s.test_result = none → s.retry_count < MAX_RETRIES → should_retry s = "retry") := by
  unfold should_retry
  cases hb : strContains (s.test_result.getD "") "passed" with
  | true =>
    refine ⟨by simp [hb], by simp [hb], fun hn _ => ?_⟩
    rw [hn] at hb
    exact absurd hb (by decide)
  | false =>
    by_cases hc : s.retry_count ≥ MAX_RETRIES <;> simp [hb, hc] <;> omega

/-- C9: The guardrail step is idempotent: a second application yields the
same guardrail_passed and error as the first (the scan only reads the
request, which the step never changes). -/
theorem guardrail_node_idempotent (s : FrontendState) :
    (guardrail_node (guardrail_node s)).guardrail_passed
      = (guardrail_node s).guardrail_passed ∧
    (guardrail_node (guardrail_node s)).error = (guardrail_node s).error := by
  cases h : DANGEROUS_KEYWORDS.find? (fun kw => strContains (lowerStr s.user_request) kw) with
  | some kw => simp [guardrail_node, h]
  | none => simp [guardrail_node, h]

/-- C1: A request containing a denylisted phrase (kw being the first match
in scan order) is blocked: the run is the guardrail followed by the blocked
terminator only, with guardrail_passed false, a non-empty error naming kw,
and generated_code, test_result and figma_design all still unset — the
design, generation and validation nodes never execute. -/
theorem guard_blocks_dangerous_request (api_key : Option String)
    (svc : Nat → String → Except String String) (request kw : String)
    (h : DANGEROUS_KEYWORDS.find? (fun k => strContains (lowerStr request) k) = some kw) :
    run api_key svc request = blocked_node (guardrail_node (initialState request)) ∧
    (run api_key svc request).guardrail_passed = some false ∧
    (run api_key svc request).error = some (guardMessage kw) ∧
    guardMessage kw ≠ "" ∧
    (run api_key svc request).generated_code = none ∧
    (run api_key svc request).test_result = none ∧
    (run api_key svc request).figma_design = none := by
  have hg : guardrail_node (initialState request)
      = { initialState request with
          guardrail_passed := some false,
          error := some (guardMessage kw) } := by
    simp only [guardrail_node, initialState, h]
  have hr : run api_key svc request = blocked_node (guardrail_node (initialState request)) := by
    unfold run
    rw [hg]
    rw [if_neg (by simp [should_proceed])]
  refine ⟨hr, ?_, ?_, guardMessage_ne_empty kw, ?_, ?_, ?_⟩ <;> rw [hr, hg] <;> rfl

/-- Witness for C1 on the demo driver's dangerous request. -/
theorem guard_blocks_dangerous_request_witness :
    run none errSvc "rm -rf all project files"
      = blocked_node (guardrail_node (initialState "rm -rf all project files")) ∧
    (run none errSvc "rm -rf all project files").guardrail_passed = some false ∧
    (run none errSvc "rm -rf all project files").error = some (guardMessage "rm -rf") ∧
    guardMessage "rm -rf" ≠ "" ∧
    (run none errSvc "rm -rf all project files").generated_code = none ∧
    (run none errSvc "rm -rf all project files").test_result = none ∧
    (run none errSvc "rm -rf all project files").figma_design = none :=
  guard_blocks_dangerous_request none errSvc "rm -rf all project files" "rm -rf" (by decide)

/-- C3: For non-empty code missing both the input marker and both submit
markers, the failure verdict lists both "Missing input fields" and
"Missing submit button" (and never reads "passed"). -/
theorem test_node_lists_every_missing_marker (s : FrontendState) (code : String)
    (hc : s.generated_code = some code) (hne : code ≠ "")
    (hinput : strContains (lowerStr code) "input" = false)
    (hbutton : strContains (lowerStr code) "button" = false)
    (hsubmit : strContains (lowerStr code) "submit" = false) :
    ∃ r, (test_node s).test_result = some r ∧
      strContains r "Missing input fields" = true ∧
      strContains r "Missing submit button" = true ∧
      strContains r "passed" = false := by
  refine ⟨validate code, by simp [test_node, hc], ?_⟩
  unfold validate
  rw [if_neg hne]
  cases hf1 : strContains code "<form" <;> cases hf2 : strContains (lowerStr code) "form" <;>
    simp [hf1, hf2, hinput, hbutton, hsubmit] <;> decide

/-- Witness for C3 at markup with neither inputs nor a submit control. -/
theorem test_node_lists_every_missing_marker_witness :
    ∃ r, (test_node { user_request := "Build a page",
                      figma_design := none,
                      generated_code := some "<p>hello</p>", test_result := none,
                      guardrail_passed := some true, retry_count := 0,
                      error := none }).test_result
        = some r ∧
      strContains r "Missing input fields" = true ∧
      strContains r "Missing submit button" = true ∧
      strContains r "passed" = false :=
  test_node_lists_every_missing_marker _ "<p>hello</p>" rfl (by decide) (by decide)
    (by decide) (by decide)

theorem retry_count_figma (s : FrontendState) :
    (figma_node s).retry_count = s.retry_count := rfl

theorem retry_count_increment (s : FrontendState) :
    (increment_retry s).retry_count = s.retry_count + 1 := rfl

theorem genLoop_fail_aux (key : String) (svc : Nat → String → Except String String)
    (hsvc : ∀ n p code, svc n p = Except.ok code →
      strContains (validate code) "passed" = false) :
    ∀ fuel s, MAX_RETRIES - s.retry_count = fuel → s.retry_count ≤ MAX_RETRIES →
      strContains (validate (s.generated_code.getD "")) "passed" = false →
      (genLoop (some key) svc s).retry_count = MAX_RETRIES ∧
      ∃ r, (genLoop (some key) svc s).test_result = some r ∧
        strContains r "passed" = false := by
  intro fuel
  induction fuel with
  | zero =>
    intro s hf hle hinv
    have hcnt : s.retry_count = MAX_RETRIES := by omega
    rw [genLoop_eq]
    cases hr : svc s.retry_count (mkPrompt s.figma_design) with
    | ok code =>
      have hfail := hsvc _ _ _ hr
      have hsr : should_retry (test_node (claude_code_node (some key)
          (Except.ok code) s)) = "done" := by
        unfold should_retry
        simp [test_node, claude_code_node, hfail, hcnt]
      rw [if_neg (by rw [hsr]; decide)]
      refine ⟨?_, validate code, by simp [test_node, claude_code_node], hfail⟩
      simp [test_node, claude_code_node, hcnt]
    | error e =>
      have hsr : should_retry (test_node (claude_code_node (some key)
          (Except.error e) s)) = "done" := by
        unfold should_retry
        simp [test_node, claude_code_node, hinv, hcnt]
      rw [if_neg (by rw [hsr]; decide)]
      refine ⟨?_, validate (s.generated_code.getD ""),
        by simp [test_node, claude_code_node], hinv⟩
      simp [test_node, claude_code_node, hcnt]
  | succ n ih =>
    intro s hf hle hinv
    have hcnt : s.retry_count < MAX_RETRIES := by omega
    rw [genLoop_eq]
    cases hr : svc s.retry_count (mkPrompt s.figma_design) with
    | ok code =>
      have hfail := hsvc _ _ _ hr
      have hsr : should_retry (test_node (claude_code_node (some key)
          (Except.ok code) s)) = "retry" := by
        unfold should_retry
        simp [test_node, claude_code_node, hfail]
        omega
      rw [if_pos hsr]
      apply ih
      · simp [increment_retry, test_node, claude_code_node]
        omega
      · simp [increment_retry, test_node, claude_code_node]
        omega
      · simp [increment_retry, test_node, claude_code_node, hfail]
    | error e =>
      have hsr : should_retry (test_node (claude_code_node (some key)
          (Except.error e) s)) = "retry" := by
        unfold should_retry
        simp [test_node, claude_code_node, hinv]
        omega
      rw [if_pos hsr]
      apply ih
      · simp [increment_retry, test_node, claude_code_node]
        omega
      · simp [increment_retry, test_node, claude_code_node]
        omega
      · simp [increment_retry, test_node, claude_code_node, hinv]

/-- C2: In service mode, when every successful generation fails validation
(and the request passes the guard so generation runs at all), the run still
terminates — genLoop is total by well-founded recursion — and ends with
retry_count exactly MAX_RETRIES and a test_result still reading as failure. -/
theorem run_exhausts_retries (key request : String)
    (svc : Nat → String → Except String String)
    (hguard : DANGEROUS_KEYWORDS.find? (fun k => strContains (lowerStr request) k) = none)
    (hsvc : ∀ n p code, svc n p = Except.ok code →
      strContains (validate code) "passed" = false) :
    (run (some key) svc request).retry_count = MAX_RETRIES ∧
    ∃ r, (run (some key) svc request).test_result = some r ∧
      strContains r "passed" = false := by
  have hg : guardrail_node (initialState request)
      = { initialState request with guardrail_passed := some true } := by
    simp only [guardrail_node, initialState, hguard]
  have hrun : run (some key) svc request
      = genLoop (some key) svc (figma_node (guardrail_node (initialState request))) := by
    unfold run
    rw [hg, if_pos (by simp [should_proceed])]
  rw [hrun, hg]
  apply genLoop_fail_aux key svc hsvc MAX_RETRIES
  · rfl
  · exact Nat.zero_le _
  · show strContains (validate "") "passed" = false
    decide

/-- Witness for C2: a service that always returns bare markup with no
form, input or submit markers exhausts both retries. -/
theorem run_exhausts_retries_witness :
    (run (some "key") divSvc "Build a login page with email and password").retry_count
      = MAX_RETRIES ∧
    ∃ r, (run (some "key") divSvc
        "Build a login page with email and password").test_result = some r ∧
      strContains r "passed" = false :=
  run_exhausts_retries "key" "Build a login page with email and password" divSvc
    (by decide)
    (fun n p code h => by
      injection h with h2
      rw [← h2]
      decide)

theorem genTrace_bound_aux (a : Option String)
    (svc : Nat → String → Except String String) :
    ∀ fuel s, MAX_RETRIES - s.retry_count = fuel → s.retry_count ≤ MAX_RETRIES →
      ∀ st ∈ genTrace a svc s, st.retry_count ≤ MAX_RETRIES := by
  intro fuel
  induction fuel with
  | zero =>
    intro s hf hle st hst
    rw [genTrace_eq] at hst
    by_cases hc : should_retry (test_node (claude_code_node a
        (svc s.retry_count (mkPrompt s.figma_design)) s)) = "retry"
    · have hlt := should_retry_lt hc
      rw [retry_count_test, retry_count_claude_code] at hlt
      omega
    · rw [if_neg hc] at hst
      simp only [List.mem_cons, List.not_mem_nil, or_false] at hst
      rcases hst with rfl | rfl
      · rw [retry_count_claude_code]
        omega
      · rw [retry_count_test, retry_count_claude_code]
        omega
  | succ n ih =>
    intro s hf hle st hst
    rw [genTrace_eq] at hst
    by_cases hc : should_retry (test_node (claude_code_node a
        (svc s.retry_count (mkPrompt s.figma_design)) s)) = "retry"
    · have hlt := should_retry_lt hc
      rw [retry_count_test, retry_count_claude_code] at hlt
      rw [if_pos hc] at hst
      simp only [List.mem_cons] at hst
      rcases hst with rfl | rfl | rfl | hst
      · rw [retry_count_claude_code]
        omega
      · rw [retry_count_test, retry_count_claude_code]
        omega
      · rw [retry_count_increment, retry_count_test, retry_count_claude_code]
        omega
      · refine ih _ ?_ ?_ st hst <;>
          rw [retry_count_increment, retry_count_test, retry_count_claude_code] <;>
          omega
    · rw [if_neg hc] at hst
      simp only [List.mem_cons, List.not_mem_nil, or_false] at hst
      rcases hst with rfl | rfl
      · rw [retry_count_claude_code]
        omega
      · rw [retry_count_test, retry_count_claude_code]
        omega

/-- C7: Along every run, retry_count never exceeds MAX_RETRIES; it starts
at 0, every node except the retry controller leaves it unchanged, and
increment_retry raises it by exactly 1 (and never lowers it). -/
theorem retry_count_never_exceeds_ceiling (api_key : Option String)
    (svc : Nat → String → Except String String) (request : String) :
    (∀ st ∈ runTrace api_key svc request, st.retry_count ≤ MAX_RETRIES) ∧
    (initialState request).retry_count = 0 ∧
    (∀ s : FrontendState, (guardrail_node s).retry_count = s.retry_count) ∧
    (∀ s : FrontendState, (figma_node s).retry_count = s.retry_count) ∧
    (∀ (a : Option String) (r : Except String String) (s : FrontendState),
      (claude_code_node a r s).retry_count = s.retry_count) ∧
    (∀ s : FrontendState, (test_node s).retry_count = s.retry_count) ∧
    (∀ s : FrontendState, (blocked_node s).retry_count = s.retry_count) ∧
    (∀ s : FrontendState, (increment_retry s).retry_count = s.retry_count + 1) := by
  refine ⟨?_, rfl, retry_count_guardrail, retry_count_figma, retry_count_claude_code,
    retry_count_test, fun s => rfl, retry_count_increment⟩
  intro st hst
  unfold runTrace at hst
  split at hst
  · simp only [List.mem_cons] at hst
    rcases hst with rfl | rfl | rfl | hst
    · exact Nat.zero_le _
    · rw [retry_count_guardrail]
      exact Nat.zero_le _
    · rw [retry_count_figma, retry_count_guardrail]
      exact Nat.zero_le _
    · refine genTrace_bound_aux api_key svc MAX_RETRIES _ ?_ ?_ st hst
      · rw [retry_count_figma, retry_count_guardrail]
        rfl
      · rw [retry_count_figma, retry_count_guardrail]
        exact Nat.zero_le _
  · simp only [List.mem_cons, List.not_mem_nil, or_false] at hst
    rcases hst with rfl | rfl | rfl
    · exact Nat.zero_le _
    · rw [retry_count_guardrail]
      exact Nat.zero_le _
    · show (guardrail_node (initialState request)).retry_count ≤ MAX_RETRIES
      rw [retry_count_guardrail]
      exact Nat.zero_le _
